import Mathlib

/-!
Shallow embedding of `src/hgan/updates.py`: the adversarial update protocol of
a GAN with a video discriminator (`Dv`), an image discriminator (`Di`), an
image generator/decoder (`Gi`) and a latent dynamics model (`RNN`).

Modelling conventions for the external differentiable-tensor library:

* A tensor is its batch size `n`, its (flattened) payload `data`, its
  `requiresGrad` flag, and its provenance `prov`: the list of trainable
  components whose parameters receive gradient when a scalar computed from
  this tensor is backpropagated.  Real data has provenance `[]`; fake data is
  produced by the generator and dynamics model, so its provenance is
  `[Gi, RNN]`; `detach` erases provenance and clears `requiresGrad`.
* Discriminators are opaque functions `Tensor → List ℚ` (one output per
  sample); the loss criterion is an opaque `List ℚ → ℚ → ℚ` (outputs and the
  fill value of the label tensor).  `torch.autograd.grad` is an oracle: the
  per-sample-flattened gradient it would return is passed in as a
  `List (List ℚ)` argument.
* Mutable training state is threaded explicitly: per-component gradient
  accumulators (a backward pass bumps the accumulator of every component it
  reaches), per-component parameters (an optimizer step folds the bound
  component's accumulator into its parameters), the shared label buffer, and
  a trace of the observable autograd events in order.
* A raised exception is modelled by `failed`: once set, no further effect
  takes place (the remaining operations of the Python function body never
  run).  A function whose final state is failed returns `none` in place of
  its result, mirroring a propagated exception.
-/

namespace HGAN

/-- The four trainable components of the system. -/
inductive Comp : Type
  | Dv | Di | Gi | RNN
deriving DecidableEq, Repr

/-- A total map from components to values, used for per-component gradient
accumulators and parameters. -/
structure CompMap (α : Type) : Type where
  dv : α
  di : α
  gi : α
  rnn : α
deriving DecidableEq, Repr

def CompMap.get {α : Type} (m : CompMap α) : Comp → α
  | .Dv => m.dv
  | .Di => m.di
  | .Gi => m.gi
  | .RNN => m.rnn

def CompMap.set {α : Type} (m : CompMap α) : Comp → α → CompMap α
  | .Dv, a => { m with dv := a }
  | .Di, a => { m with di := a }
  | .Gi, a => { m with gi := a }
  | .RNN, a => { m with rnn := a }

/-- A tensor: batch size (`size(0)`), flattened payload, gradient-tracking
flag, and the trainable components gradients flow into on backward. -/
structure Tensor : Type where
  n : ℕ
  data : List ℚ
  requiresGrad : Bool
  prov : List Comp
deriving DecidableEq, Repr

/-- `t.detach()`: same data, severed from the computation graph. -/
def Tensor.detach (t : Tensor) : Tensor :=
  { t with requiresGrad := false, prov := [] }

/-- A data batch: `videos`, `img`, and (for the phase-space variant) the
latent trajectory derivatives `dlatent` (batch × time × channels) together
with their provenance. -/
structure Batch : Type where
  videos : Tensor
  img : Tensor
  dlatent : List (List (List ℚ))
  dlatentProv : List Comp
deriving DecidableEq, Repr

/-- Observable autograd events, in program order. -/
inductive Event : Type
  | zeroGrad (c : Comp)
  | backward (into : List Comp) (y : ℚ) (retain : Bool)
  | gradCall (createGraph : Bool)
  | r1Backward (into : List Comp)
  | latentBackward (into : List Comp) (value : ℚ)
  | step (c : Comp)
deriving DecidableEq, Repr

/-- The mutable training state threaded through the update protocol. -/
structure State : Type where
  grads : CompMap ℕ
  params : CompMap ℤ
  label : List ℚ
  trace : List Event
  failed : Option String
deriving DecidableEq, Repr

/-- Bump the gradient accumulator of every component in `cs`. -/
def bumpGrads (cs : List Comp) (m : CompMap ℕ) : CompMap ℕ :=
  cs.foldl (fun acc c => acc.set c (acc.get c + 1)) m

/-- `component.zero_grad()`. -/
def zeroGradOp (c : Comp) (s : State) : State :=
  if s.failed.isSome then s
  else { s with grads := s.grads.set c 0, trace := s.trace ++ [.zeroGrad c] }

/-- `optim.step()`: applies the bound component's accumulated gradients to
that component's parameters, and nothing else. -/
def stepOp (c : Comp) (s : State) : State :=
  if s.failed.isSome then s
  else { s with params := s.params.set c (s.params.get c - (s.grads.get c : ℤ)),
                trace := s.trace ++ [.step c] }

/-- `err.backward(retain_graph)`: accumulates gradients into every component
of the loss's provenance. -/
def backwardOp (into : List Comp) (y : ℚ) (retain : Bool) (s : State) : State :=
  if s.failed.isSome then s
  else { s with grads := bumpGrads into s.grads,
                trace := s.trace ++ [.backward into y retain] }

/-- Backward pass of the R1 penalty into the discriminator. -/
def r1BackwardOp (into : List Comp) (s : State) : State :=
  if s.failed.isSome then s
  else { s with grads := bumpGrads into s.grads,
                trace := s.trace ++ [.r1Backward into] }

/-- Backward pass of the physics-consistency (latent) penalty. -/
def latentBackwardOp (into : List Comp) (v : ℚ) (s : State) : State :=
  if s.failed.isSome then s
  else { s with grads := bumpGrads into s.grads,
                trace := s.trace ++ [.latentBackward into v] }

/-- `label.resize_(inputs.size(0)).fill_(y)` on the shared label buffer. -/
def fillLabelOp (n : ℕ) (y : ℚ) (s : State) : State :=
  if s.failed.isSome then s
  else { s with label := List.replicate n y }

/-- Mean of a list of rationals (`tensor.mean()`); 0 on the empty list. -/
def listMean (l : List ℚ) : ℚ := l.sum / l.length

/-- Sum of squares of a list: the squared L2 norm of a flattened row. -/
def sumSq (l : List ℚ) : ℚ := (l.map (fun x => x ^ 2)).sum

/-- Sum of absolute values over a 2-dimensional slice. -/
def sumAbs2 (m : List (List ℚ)) : ℚ :=
  (m.map (fun r => (r.map (fun x => |x|)).sum)).sum

/-- `bp_i` from the source: fill the label buffer, run the image
discriminator, evaluate the criterion, backpropagate.  Returns the scalar
loss and the raw outputs. -/
def bp_i (d : Comp) (dis_i : Tensor → List ℚ) (criterion : List ℚ → ℚ → ℚ)
    (inputs : Tensor) (y : ℚ) (retain : Bool) (s : State) :
    (ℚ × List ℚ) × State :=
  let s := fillLabelOp inputs.n y s
  let outputs := dis_i inputs
  let err := criterion outputs y
  ((err, outputs), backwardOp (d :: inputs.prov) y retain s)

/-- `bp_v` from the source: identical to `bp_i`, through the video
discriminator. -/
def bp_v (d : Comp) (dis_v : Tensor → List ℚ) (criterion : List ℚ → ℚ → ℚ)
    (inputs : Tensor) (y : ℚ) (retain : Bool) (s : State) :
    (ℚ × List ℚ) × State :=
  let s := fillLabelOp inputs.n y s
  let outputs := dis_v inputs
  let err := criterion outputs y
  ((err, outputs), backwardOp (d :: inputs.prov) y retain s)

/-- `r1_loss` from the source.  `grad_real` is the oracle answer of
`torch.autograd.grad(real_out.sum(), real_input, create_graph=True)`,
already in per-sample-flattened form (`view(B, -1)` is the identity here);
`norm(2, dim=1) ** 2` is the per-row sum of squares.  The call raises when
`real_input` does not require grad. -/
def r1_loss (r1_gamma : ℚ) (d : Comp) (real_out : List ℚ) (real_input : Tensor)
    (grad_real : List (List ℚ)) (s : State) : ℚ × State :=
  if s.failed.isSome then (0, s)
  else if real_input.requiresGrad = false then
    (0, { s with failed := some "grad: one of the differentiated tensors does not require grad" })
  else
    let s := { s with trace := s.trace ++ [.gradCall true] }
    let grad_penalty := listMean (grad_real.map sumSq)
    let grad_penalty := r1_gamma / 2 * grad_penalty
    (grad_penalty, r1BackwardOp [d] s)

/-- `update_Dv` from the source.  Returns the error and mean dictionaries
(`none` when the body raised), the caller's `real_data` batch as it stands
after the call (its `videos` tensor is mutated in place), and the state. -/
def update_Dv (rnn_type : String) (criterion : List ℚ → ℚ → ℚ) (r1_gamma : ℚ)
    (dis_v : Tensor → List ℚ) (grad_real_v : List (List ℚ))
    (real_data fake_data : Batch) (s : State) :
    Option (List (String × ℚ) × List (String × ℚ)) × Batch × State :=
  let real_videos := real_data.videos
  let fake_videos := fake_data.videos
  let s := zeroGradOp .Dv s
  let real_videos :=
    { real_videos with requiresGrad := if rnn_type = "gru" then false else true }
  let real_data := { real_data with videos := real_videos }
  let r := bp_v .Dv dis_v criterion real_videos (9/10) true s
  let err_Dv_real := r.1.1
  let real_out := r.1.2
  let s := r.2
  let Dv_real_mean := listMean real_out
  let s := if r1_gamma ≠ 0 then (r1_loss r1_gamma .Dv real_out real_videos grad_real_v s).2 else s
  let r := bp_v .Dv dis_v criterion fake_videos.detach 0 false s
  let err_Dv_fake := r.1.1
  let fake_out := r.1.2
  let s := r.2
  let Dv_fake_mean := listMean fake_out
  let err_Dv := err_Dv_real + err_Dv_fake
  let s := stepOp .Dv s
  let res :=
    if s.failed.isSome then none
    else some ([("Dv_real", err_Dv_real), ("Dv_fake", err_Dv_fake), ("Dv", err_Dv)],
               [("Dv_real", Dv_real_mean), ("Dv_fake", Dv_fake_mean)])
  (res, real_data, s)

/-- `update_Di` from the source: the image-discriminator analogue of
`update_Dv`; real-image gradient tracking is always enabled. -/
def update_Di (rnn_type : String) (criterion : List ℚ → ℚ → ℚ) (r1_gamma : ℚ)
    (dis_i : Tensor → List ℚ) (grad_real_i : List (List ℚ))
    (real_data fake_data : Batch) (s : State) :
    Option (List (String × ℚ) × List (String × ℚ)) × Batch × State :=
  let real_img := real_data.img
  let fake_img := fake_data.img
  let s := zeroGradOp .Di s
  let real_img := { real_img with requiresGrad := true }
  let real_data := { real_data with img := real_img }
  let r := bp_i .Di dis_i criterion real_img (9/10) true s
  let err_Di_real := r.1.1
  let real_out := r.1.2
  let s := r.2
  let Di_real_mean := listMean real_out
  let s := if r1_gamma ≠ 0 then (r1_loss r1_gamma .Di real_out real_img grad_real_i s).2 else s
  let r := bp_i .Di dis_i criterion fake_img.detach 0 false s
  let err_Di_fake := r.1.1
  let fake_out := r.1.2
  let s := r.2
  let Di_fake_mean := listMean fake_out
  let err_Di := err_Di_real + err_Di_fake
  let s := stepOp .Di s
  let res :=
    if s.failed.isSome then none
    else some ([("Di_real", err_Di_real), ("Di_fake", err_Di_fake), ("Di", err_Di)],
               [("Di_real", Di_real_mean), ("Di_fake", Di_fake_mean)])
  (res, real_data, s)

/-- The physics-consistency (latent) penalty of `update_G`:
`torch.sum(torch.abs(dlatent[:, :, q_size:])) / batch_size * cyclic_coord_loss`. -/
def latentLoss (q_size batch_size : ℕ) (cyclic_coord_loss : ℚ)
    (dlatent : List (List (List ℚ))) : ℚ :=
  let dpdt := dlatent.map (fun sample => sample.map (fun chs => chs.drop q_size))
  (dpdt.map sumAbs2).sum / (batch_size : ℚ) * cyclic_coord_loss

/-- `update_G` from the source: clear generator-side gradients, adversarial
backprop of fake videos and fake images (graph retention of the image pass
and the latent penalty depend on `rnn_type`), step the generator and
dynamics-model optimizers. -/
def update_G (rnn_type : String) (criterion : List ℚ → ℚ → ℚ)
    (q_size batch_size : ℕ) (cyclic_coord_loss : ℚ)
    (dis_i dis_v : Tensor → List ℚ) (fake_data : Batch) (s : State) :
    Option (List (String × ℚ)) × State :=
  let s := zeroGradOp .Gi s
  let s := zeroGradOp .RNN s
  let rv := bp_v .Dv dis_v criterion fake_data.videos (9/10) true s
  let err_Gv := rv.1.1
  let s := rv.2
  let ri :=
    if rnn_type = "hnn_phase_space" then
      bp_i .Di dis_i criterion fake_data.img (9/10) true s
    else
      bp_i .Di dis_i criterion fake_data.img (9/10) false s
  let err_Gi := ri.1.1
  let s := ri.2
  let s :=
    if rnn_type = "hnn_phase_space" then
      latentBackwardOp fake_data.dlatentProv
        (latentLoss q_size batch_size cyclic_coord_loss fake_data.dlatent) s
    else s
  let s := stepOp .Gi s
  let s := stepOp .RNN s
  let res :=
    if s.failed.isSome then none
    else some [("Gv", err_Gv), ("Gi", err_Gi)]
  (res, s)

/-- `update_models` from the source: the orchestrator.  Runs `update_Dv`,
then `update_Di`, then `update_G`, and merges the returned dictionaries. -/
def update_models (rnn_type : String) (criterion : List ℚ → ℚ → ℚ)
    (q_size batch_size : ℕ) (cyclic_coord_loss : ℚ) (r1_gamma : ℚ)
    (dis_i dis_v : Tensor → List ℚ)
    (grad_real_v grad_real_i : List (List ℚ))
    (real_data fake_data : Batch) (s : State) :
    Option (List (String × ℚ) × List (String × ℚ)) × Batch × State :=
  let rDv := update_Dv rnn_type criterion r1_gamma dis_v grad_real_v real_data fake_data s
  let real_data := rDv.2.1
  let s := rDv.2.2
  let rDi := update_Di rnn_type criterion r1_gamma dis_i grad_real_i real_data fake_data s
  let real_data := rDi.2.1
  let s := rDi.2.2
  let rG := update_G rnn_type criterion q_size batch_size cyclic_coord_loss dis_i dis_v fake_data s
  let s := rG.2
  let res :=
    match rDv.1, rDi.1, rG.1 with
    | some (errDv, meanDv), some (errDi, meanDi), some errG =>
        some (errDv ++ errDi ++ errG, meanDv ++ meanDi)
    | _, _, _ => none
  (res, real_data, s)

/-- Components stepped in a trace, in order. -/
def stepsOf (t : List Event) : List Comp :=
  t.filterMap (fun e => match e with | .step c => some c | _ => none)

/-- Components whose gradients are cleared in a trace, in order. -/
def zerosOf (t : List Event) : List Comp :=
  t.filterMap (fun e => match e with | .zeroGrad c => some c | _ => none)

/-- Number of R1-penalty events (gradient-oracle calls and penalty backward
passes) in a trace. -/
def penaltyEvents (t : List Event) : ℕ :=
  t.countP (fun e => match e with | .r1Backward _ => true | .gradCall _ => true | _ => false)

/-- Number of physics-consistency (latent) backward passes in a trace. -/
def latentEvents (t : List Event) : ℕ :=
  t.countP (fun e => match e with | .latentBackward _ _ => true | _ => false)

/-- Number of optimizer steps in a trace. -/
def stepEvents (t : List Event) : ℕ :=
  t.countP (fun e => match e with | .step _ => true | _ => false)

theorem CompMap.get_set {α : Type} (m : CompMap α) (c c' : Comp) (a : α) :
    (m.set c a).get c' = if c' = c then a else m.get c' := by
  cases c <;> cases c' <;> simp [CompMap.get, CompMap.set]

attribute [simp] CompMap.get_set

/-- An event is a step of component `c`. -/
def isStepE (c : Comp) : Event → Bool :=
  fun e => match e with | .step c' => decide (c' = c) | _ => false

/-- An event clears the gradients of component `c`. -/
def isZeroE (c : Comp) : Event → Bool :=
  fun e => match e with | .zeroGrad c' => decide (c' = c) | _ => false

/-- An event accumulates gradients into component `c`. -/
def accumE (c : Comp) : Event → Bool :=
  fun e => match e with
  | .backward into _ _ => decide (c ∈ into)
  | .r1Backward into => decide (c ∈ into)
  | .latentBackward into _ => decide (c ∈ into)
  | _ => false

/-- Gradient discipline for one component `c` in a trace: `c` is stepped at
most once, and if it is stepped then, in the prefix before its step, exactly
one clearing of `c`'s gradients occurs and it precedes every backward pass
that accumulates into `c`. -/
def compOK (c : Comp) (t : List Event) : Prop :=
  t.countP (isStepE c) ≤ 1 ∧
  (t.countP (isStepE c) = 0 ∨
    ((t.takeWhile fun e => !(isStepE c e)).countP (isZeroE c) = 1 ∧
     ((t.takeWhile fun e => !(isStepE c e)).takeWhile
        fun e => !(isZeroE c e)).countP (accumE c) = 0))

/-- Gradient discipline for every trainable component. -/
def updateDiscipline (t : List Event) : Prop :=
  ∀ c : Comp, compOK c t

/-- A sample discriminator for concrete runs. -/
def disC : Tensor → List ℚ :=
  fun t => List.replicate t.n (1/2)

/-- A sample binary criterion (squared error against the filled label). -/
def critC : List ℚ → ℚ → ℚ :=
  fun outs y => (outs.map (fun o => (o - y) ^ 2)).sum

/-- A sample real-data batch (no generator provenance). -/
def realBatchC : Batch :=
  { videos := { n := 4, data := [1, 2, 3, 4], requiresGrad := false, prov := [] },
    img := { n := 4, data := [1, 2], requiresGrad := false, prov := [] },
    dlatent := [],
    dlatentProv := [] }

/-- A sample fake-data batch, produced by the generator and dynamics model. -/
def fakeBatchC : Batch :=
  { videos := { n := 4, data := [5, 6], requiresGrad := false, prov := [.Gi, .RNN] },
    img := { n := 4, data := [7], requiresGrad := false, prov := [.Gi, .RNN] },
    dlatent := [[[1, 2, 0, 0]], [[3, 4, 0, 0]]],
    dlatentProv := [.RNN] }

/-- A sample gradient-oracle answer (batch of 4 flattened rows). -/
def gradC : List (List ℚ) :=
  [[1, 0], [0, 1], [1, 1], [2, 0]]

/-- A fresh training state. -/
def initState : State :=
  { grads := { dv := 0, di := 0, gi := 0, rnn := 0 },
    params := { dv := 0, di := 0, gi := 0, rnn := 0 },
    label := [],
    trace := [],
    failed := none }

/-- C10: the discriminator update steps overwrite the gradient-tracking flags
of the caller-owned real-data tensors as a lasting side effect: after
`update_Dv` the real videos' `requiresGrad` is `false` exactly when
`rnn_type = "gru"`, and after `update_Di` the real images' `requiresGrad` is
`true`, for every input batch and every `r1_gamma`. -/
theorem update_real_requires_grad_mutation
    (rnn_type : String) (criterion : List ℚ → ℚ → ℚ) (r1_gamma : ℚ)
    (dis_v dis_i : Tensor → List ℚ) (gv gi : List (List ℚ))
    (real_data fake_data : Batch) (s : State) (h : s.failed = none) :
    ((update_Dv rnn_type criterion r1_gamma dis_v gv real_data fake_data s).2.1.videos.requiresGrad
      = if rnn_type = "gru" then false else true)
    ∧ (update_Di rnn_type criterion r1_gamma dis_i gi real_data fake_data s).2.1.img.requiresGrad
      = true := by
  constructor <;> simp [update_Dv, update_Di]

theorem update_real_requires_grad_mutation_witness :
    initState.failed = none
    ∧ (((update_Dv "gru" critC 1 disC gradC realBatchC fakeBatchC initState).2.1.videos.requiresGrad
        = if ("gru" : String) = "gru" then false else true)
      ∧ (update_Di "gru" critC 1 disC gradC realBatchC fakeBatchC initState).2.1.img.requiresGrad
        = true) :=
  ⟨rfl, update_real_requires_grad_mutation "gru" critC 1 disC disC gradC gradC
    realBatchC fakeBatchC initState rfl⟩

/-- C3: with the gated-recurrent (`gru`) variant, the video-discriminator
update disables gradient tracking on the real videos and never applies the
R1 penalty to them, for any `r1_gamma` (with a non-zero weight the penalty's
gradient call raises before any penalty event); the image-discriminator
update enables gradient tracking on real images for every variant. -/
theorem gru_video_r1_asymmetry
    (criterion : List ℚ → ℚ → ℚ) (r1_gamma : ℚ)
    (dis_v dis_i : Tensor → List ℚ) (gv gi : List (List ℚ))
    (real_data fake_data : Batch) (s : State)
    (h : s.failed = none) (ht : s.trace = []) :
    (update_Dv "gru" criterion r1_gamma dis_v gv real_data fake_data s).2.1.videos.requiresGrad
      = false
    ∧ penaltyEvents (update_Dv "gru" criterion r1_gamma dis_v gv real_data fake_data s).2.2.trace
      = 0
    ∧ ∀ rnn_type : String,
        (update_Di rnn_type criterion r1_gamma dis_i gi real_data fake_data s).2.1.img.requiresGrad
          = true := by
  refine ⟨by simp [update_Dv], ?_, fun rnn_type => by simp [update_Di]⟩
  by_cases hγ : r1_gamma = 0
  · subst hγ
    simp [update_Dv, bp_v, fillLabelOp, backwardOp, zeroGradOp, stepOp, r1_loss,
      penaltyEvents, h, ht]
  · simp [update_Dv, bp_v, fillLabelOp, backwardOp, zeroGradOp, stepOp, r1_loss,
      penaltyEvents, h, ht, hγ]

theorem gru_video_r1_asymmetry_witness :
    initState.failed = none ∧ initState.trace = []
    ∧ ((update_Dv "gru" critC 1 disC gradC realBatchC fakeBatchC initState).2.1.videos.requiresGrad
        = false
      ∧ penaltyEvents (update_Dv "gru" critC 1 disC gradC realBatchC fakeBatchC initState).2.2.trace
        = 0
      ∧ ∀ rnn_type : String,
          (update_Di rnn_type critC 1 disC gradC realBatchC fakeBatchC initState).2.1.img.requiresGrad
            = true) :=
  ⟨rfl, rfl, gru_video_r1_asymmetry critC 1 disC disC gradC gradC
    realBatchC fakeBatchC initState rfl rfl⟩

/-- C4: with gradient tracking enabled on the real input, `r1_loss` returns
`gamma / 2` times the batch mean of the squared L2 norms of the per-sample
flattened gradient rows, requests that gradient with `create_graph = true`
(so a further backward pass can flow through it), and immediately
backpropagates the penalty additively onto the discriminator's existing
accumulated gradients, touching no other component. -/
theorem r1_loss_spec
    (r1_gamma : ℚ) (d : Comp) (real_out : List ℚ) (real_input : Tensor)
    (grad_real : List (List ℚ)) (s : State)
    (h : s.failed = none) (hrg : real_input.requiresGrad = true) :
    (r1_loss r1_gamma d real_out real_input grad_real s).1
      = r1_gamma / 2 * listMean (grad_real.map sumSq)
    ∧ (r1_loss r1_gamma d real_out real_input grad_real s).2.grads.get d
      = s.grads.get d + 1
    ∧ (∀ c : Comp, c ≠ d →
        (r1_loss r1_gamma d real_out real_input grad_real s).2.grads.get c = s.grads.get c)
    ∧ (r1_loss r1_gamma d real_out real_input grad_real s).2.trace
      = s.trace ++ [.gradCall true, .r1Backward [d]]
    ∧ (r1_loss r1_gamma d real_out real_input grad_real s).2.failed = none := by
  refine ⟨?_, ?_, fun c hc => ?_, ?_, ?_⟩
  · simp [r1_loss, r1BackwardOp, bumpGrads, h, hrg]
  · simp [r1_loss, r1BackwardOp, bumpGrads, h, hrg]
  · simp [r1_loss, r1BackwardOp, bumpGrads, h, hrg, hc]
  · simp [r1_loss, r1BackwardOp, bumpGrads, h, hrg]
  · simp [r1_loss, r1BackwardOp, bumpGrads, h, hrg]

theorem r1_loss_spec_witness :
    initState.failed = none ∧ ({ n := 4, data := [1], requiresGrad := true, prov := [] } : Tensor).requiresGrad = true
    ∧ ((r1_loss 1 .Dv [1, 1, 1, 1] { n := 4, data := [1], requiresGrad := true, prov := [] } gradC initState).1
        = 1 / 2 * listMean (gradC.map sumSq)
      ∧ (r1_loss 1 .Dv [1, 1, 1, 1] { n := 4, data := [1], requiresGrad := true, prov := [] } gradC initState).2.grads.get .Dv
        = initState.grads.get .Dv + 1
      ∧ (∀ c : Comp, c ≠ .Dv →
          (r1_loss 1 .Dv [1, 1, 1, 1] { n := 4, data := [1], requiresGrad := true, prov := [] } gradC initState).2.grads.get c
            = initState.grads.get c)
      ∧ (r1_loss 1 .Dv [1, 1, 1, 1] { n := 4, data := [1], requiresGrad := true, prov := [] } gradC initState).2.trace
        = initState.trace ++ [.gradCall true, .r1Backward [.Dv]]
      ∧ (r1_loss 1 .Dv [1, 1, 1, 1] { n := 4, data := [1], requiresGrad := true, prov := [] } gradC initState).2.failed
        = none) :=
  ⟨rfl, rfl, r1_loss_spec 1 .Dv [1, 1, 1, 1] _ gradC initState rfl rfl⟩

/-- C5: when `r1_gamma = 0` both discriminator updates skip the penalty path
entirely: the result is identical for any two gradient-oracle answers, and
the effect trace is exactly gradient-clear, real backward at 0.9 (retained),
fake backward at 0 (not retained), optimizer step — no gradient call, no
penalty backward, and no gradient modification beyond those events. -/
theorem r1_gamma_zero_noop
    (rnn_type : String) (criterion : List ℚ → ℚ → ℚ)
    (dis_v dis_i : Tensor → List ℚ) (g1 g2 : List (List ℚ))
    (real_data fake_data : Batch) (s : State)
    (h : s.failed = none) (ht : s.trace = []) :
    update_Dv rnn_type criterion 0 dis_v g1 real_data fake_data s
      = update_Dv rnn_type criterion 0 dis_v g2 real_data fake_data s
    ∧ update_Di rnn_type criterion 0 dis_i g1 real_data fake_data s
      = update_Di rnn_type criterion 0 dis_i g2 real_data fake_data s
    ∧ (update_Dv rnn_type criterion 0 dis_v g1 real_data fake_data s).2.2.trace
      = [.zeroGrad .Dv,
         .backward (.Dv :: real_data.videos.prov) (9/10) true,
         .backward [.Dv] 0 false,
         .step .Dv]
    ∧ (update_Di rnn_type criterion 0 dis_i g1 real_data fake_data s).2.2.trace
      = [.zeroGrad .Di,
         .backward (.Di :: real_data.img.prov) (9/10) true,
         .backward [.Di] 0 false,
         .step .Di] := by
  refine ⟨rfl, rfl, ?_, ?_⟩ <;>
    simp [update_Dv, update_Di, bp_v, bp_i, fillLabelOp, backwardOp, zeroGradOp,
      stepOp, Tensor.detach, h, ht]

theorem r1_gamma_zero_noop_witness :
    initState.failed = none ∧ initState.trace = []
    ∧ (update_Dv "gru" critC 0 disC gradC realBatchC fakeBatchC initState
        = update_Dv "gru" critC 0 disC [] realBatchC fakeBatchC initState
      ∧ update_Di "gru" critC 0 disC gradC realBatchC fakeBatchC initState
        = update_Di "gru" critC 0 disC [] realBatchC fakeBatchC initState
      ∧ (update_Dv "gru" critC 0 disC gradC realBatchC fakeBatchC initState).2.2.trace
        = [.zeroGrad .Dv,
           .backward (.Dv :: realBatchC.videos.prov) (9/10) true,
           .backward [.Dv] 0 false,
           .step .Dv]
      ∧ (update_Di "gru" critC 0 disC gradC realBatchC fakeBatchC initState).2.2.trace
        = [.zeroGrad .Di,
           .backward (.Di :: realBatchC.img.prov) (9/10) true,
           .backward [.Di] 0 false,
           .step .Di]) :=
  ⟨rfl, rfl, r1_gamma_zero_noop "gru" critC disC disC gradC [] realBatchC fakeBatchC initState rfl rfl⟩

/-- C7: the fake data is detached before the discriminator backward passes:
invoking `update_Dv`, `update_Di`, or the two in sequence leaves the
generator's and the dynamics model's gradient accumulators untouched, for
every variant and every `r1_gamma`. -/
theorem discriminator_updates_no_generator_grads
    (rnn_type : String) (criterion : List ℚ → ℚ → ℚ) (r1_gamma : ℚ)
    (dis_v dis_i : Tensor → List ℚ) (gv gi : List (List ℚ))
    (real_data fake_data : Batch) (s : State)
    (h : s.failed = none)
    (hpv : real_data.videos.prov = []) (hpi : real_data.img.prov = []) :
    (update_Dv rnn_type criterion r1_gamma dis_v gv real_data fake_data s).2.2.grads.get .Gi
      = s.grads.get .Gi
    ∧ (update_Dv rnn_type criterion r1_gamma dis_v gv real_data fake_data s).2.2.grads.get .RNN
      = s.grads.get .RNN
    ∧ (update_Di rnn_type criterion r1_gamma dis_i gi real_data fake_data s).2.2.grads.get .Gi
      = s.grads.get .Gi
    ∧ (update_Di rnn_type criterion r1_gamma dis_i gi real_data fake_data s).2.2.grads.get .RNN
      = s.grads.get .RNN
    ∧ (update_Di rnn_type criterion r1_gamma dis_i gi
        (update_Dv rnn_type criterion r1_gamma dis_v gv real_data fake_data s).2.1 fake_data
        (update_Dv rnn_type criterion r1_gamma dis_v gv real_data fake_data s).2.2).2.2.grads.get .Gi
      = s.grads.get .Gi
    ∧ (update_Di rnn_type criterion r1_gamma dis_i gi
        (update_Dv rnn_type criterion r1_gamma dis_v gv real_data fake_data s).2.1 fake_data
        (update_Dv rnn_type criterion r1_gamma dis_v gv real_data fake_data s).2.2).2.2.grads.get .RNN
      = s.grads.get .RNN := by
  by_cases hg : rnn_type = "gru" <;> by_cases hγ : r1_gamma = 0 <;>
    refine ⟨?_, ?_, ?_, ?_, ?_, ?_⟩ <;>
      simp [update_Dv, update_Di, bp_v, bp_i, fillLabelOp, backwardOp, zeroGradOp,
        stepOp, r1_loss, r1BackwardOp, bumpGrads, Tensor.detach, h, hpv, hpi, hg, hγ]

theorem discriminator_updates_no_generator_grads_witness :
    initState.failed = none
    ∧ realBatchC.videos.prov = [] ∧ realBatchC.img.prov = []
    ∧ ((update_Dv "gru" critC 1 disC gradC realBatchC fakeBatchC initState).2.2.grads.get .Gi
        = initState.grads.get .Gi
      ∧ (update_Dv "gru" critC 1 disC gradC realBatchC fakeBatchC initState).2.2.grads.get .RNN
        = initState.grads.get .RNN
      ∧ (update_Di "gru" critC 1 disC gradC realBatchC fakeBatchC initState).2.2.grads.get .Gi
        = initState.grads.get .Gi
      ∧ (update_Di "gru" critC 1 disC gradC realBatchC fakeBatchC initState).2.2.grads.get .RNN
        = initState.grads.get .RNN
      ∧ (update_Di "gru" critC 1 disC gradC
          (update_Dv "gru" critC 1 disC gradC realBatchC fakeBatchC initState).2.1 fakeBatchC
          (update_Dv "gru" critC 1 disC gradC realBatchC fakeBatchC initState).2.2).2.2.grads.get .Gi
        = initState.grads.get .Gi
      ∧ (update_Di "gru" critC 1 disC gradC
          (update_Dv "gru" critC 1 disC gradC realBatchC fakeBatchC initState).2.1 fakeBatchC
          (update_Dv "gru" critC 1 disC gradC realBatchC fakeBatchC initState).2.2).2.2.grads.get .RNN
        = initState.grads.get .RNN) :=
  ⟨rfl, rfl, rfl, discriminator_updates_no_generator_grads "gru" critC 1 disC disC gradC gradC
    realBatchC fakeBatchC initState rfl rfl rfl⟩

/-- C6: `update_G` steps exactly the generator/image-decoder optimizer and
the dynamics-model optimizer, in that order, and leaves the parameters of
both discriminators unchanged, even though the adversarial backward passes
of this call accumulate one gradient contribution into each discriminator. -/
theorem update_G_frame
    (rnn_type : String) (criterion : List ℚ → ℚ → ℚ)
    (q_size batch_size : ℕ) (cyclic_coord_loss : ℚ)
    (dis_i dis_v : Tensor → List ℚ) (fake_data : Batch) (s : State)
    (h : s.failed = none) (ht : s.trace = [])
    (hfv : fake_data.videos.prov = [.Gi, .RNN])
    (hfi : fake_data.img.prov = [.Gi, .RNN])
    (hdl : fake_data.dlatentProv = [.RNN]) :
    (update_G rnn_type criterion q_size batch_size cyclic_coord_loss dis_i dis_v fake_data s).2.params.get .Dv
      = s.params.get .Dv
    ∧ (update_G rnn_type criterion q_size batch_size cyclic_coord_loss dis_i dis_v fake_data s).2.params.get .Di
      = s.params.get .Di
    ∧ stepsOf (update_G rnn_type criterion q_size batch_size cyclic_coord_loss dis_i dis_v fake_data s).2.trace
      = [.Gi, .RNN]
    ∧ (update_G rnn_type criterion q_size batch_size cyclic_coord_loss dis_i dis_v fake_data s).2.grads.get .Dv
      = s.grads.get .Dv + 1
    ∧ (update_G rnn_type criterion q_size batch_size cyclic_coord_loss dis_i dis_v fake_data s).2.grads.get .Di
      = s.grads.get .Di + 1 := by
  by_cases hr : rnn_type = "hnn_phase_space" <;>
    refine ⟨?_, ?_, ?_, ?_, ?_⟩ <;>
      simp [update_G, bp_v, bp_i, fillLabelOp, backwardOp, zeroGradOp, stepOp,
        latentBackwardOp, bumpGrads, stepsOf, h, ht, hfv, hfi, hdl, hr]

theorem update_G_frame_witness :
    initState.failed = none ∧ initState.trace = []
    ∧ fakeBatchC.videos.prov = [.Gi, .RNN]
    ∧ fakeBatchC.img.prov = [.Gi, .RNN]
    ∧ fakeBatchC.dlatentProv = [.RNN]
    ∧ ((update_G "hnn_phase_space" critC 2 2 (1/10) disC disC fakeBatchC initState).2.params.get .Dv
        = initState.params.get .Dv
      ∧ (update_G "hnn_phase_space" critC 2 2 (1/10) disC disC fakeBatchC initState).2.params.get .Di
        = initState.params.get .Di
      ∧ stepsOf (update_G "hnn_phase_space" critC 2 2 (1/10) disC disC fakeBatchC initState).2.trace
        = [.Gi, .RNN]
      ∧ (update_G "hnn_phase_space" critC 2 2 (1/10) disC disC fakeBatchC initState).2.grads.get .Dv
        = initState.grads.get .Dv + 1
      ∧ (update_G "hnn_phase_space" critC 2 2 (1/10) disC disC fakeBatchC initState).2.grads.get .Di
        = initState.grads.get .Di + 1) :=
  ⟨rfl, rfl, rfl, rfl, rfl, update_G_frame "hnn_phase_space" critC 2 2 (1/10) disC disC
    fakeBatchC initState rfl rfl rfl rfl rfl⟩

/-- C2 counterexample: with `rnn_type = "gru"` and `r1_gamma = 1` the
video-discriminator update aborts inside the penalty's gradient call (real
videos have gradient tracking disabled): the claimed sequence does not
occur — no penalty backward, no fake backward, no optimizer step — and no
loss/mean dictionaries are returned. -/
theorem update_Dv_gru_r1_aborts :
    (update_Dv "gru" critC 1 disC gradC realBatchC fakeBatchC initState).1 = none
    ∧ stepEvents (update_Dv "gru" critC 1 disC gradC realBatchC fakeBatchC initState).2.2.trace
      = 0
    ∧ (update_Dv "gru" critC 1 disC gradC realBatchC fakeBatchC initState).2.2.trace
      = [.zeroGrad .Dv, .backward [.Dv] (9/10) true] := by
  refine ⟨?_, ?_, ?_⟩ <;>
    simp [update_Dv, bp_v, fillLabelOp, backwardOp, zeroGradOp, stepOp, r1_loss,
      r1BackwardOp, bumpGrads, Tensor.detach, stepEvents, initState, realBatchC, fakeBatchC]

/-- C2 (amended): unless `rnn_type = "gru"` with a non-zero R1 weight (in
which case the penalty's gradient computation raises after the real backward
pass and the update aborts), `update_Dv`'s effects occur in exactly the
sequence: clear video-discriminator gradients; backprop real videos at
target 0.9 with the graph retained; if the R1 weight is non-zero, request
the real-input gradient and backprop the penalty; backprop detached fake
videos at target 0 without retention; step the video-discriminator
optimizer.  It returns the real, fake and combined (real + fake) scalar
losses and the real/fake batch-mean discriminator outputs. -/
theorem update_Dv_sequence
    (rnn_type : String) (criterion : List ℚ → ℚ → ℚ) (r1_gamma : ℚ)
    (dis_v : Tensor → List ℚ) (gv : List (List ℚ))
    (real_data fake_data : Batch) (s : State)
    (h : s.failed = none) (ht : s.trace = []) (hpv : real_data.videos.prov = [])
    (hok : rnn_type = "gru" → r1_gamma = 0) :
    (update_Dv rnn_type criterion r1_gamma dis_v gv real_data fake_data s).2.2.trace
      = [.zeroGrad .Dv, .backward [.Dv] (9/10) true]
        ++ (if r1_gamma ≠ 0 then [.gradCall true, .r1Backward [.Dv]] else [])
        ++ [.backward [.Dv] 0 false, .step .Dv]
    ∧ (update_Dv rnn_type criterion r1_gamma dis_v gv real_data fake_data s).1
      = some
          ([("Dv_real",
             criterion (dis_v { real_data.videos with
               requiresGrad := if rnn_type = "gru" then false else true }) (9/10)),
            ("Dv_fake", criterion (dis_v fake_data.videos.detach) 0),
            ("Dv",
             criterion (dis_v { real_data.videos with
               requiresGrad := if rnn_type = "gru" then false else true }) (9/10)
               + criterion (dis_v fake_data.videos.detach) 0)],
           [("Dv_real",
             listMean (dis_v { real_data.videos with
               requiresGrad := if rnn_type = "gru" then false else true })),
            ("Dv_fake", listMean (dis_v fake_data.videos.detach))]) := by
  by_cases hg : rnn_type = "gru"
  · have hγ := hok hg
    subst hγ
    refine ⟨?_, ?_⟩ <;>
      simp [update_Dv, bp_v, fillLabelOp, backwardOp, zeroGradOp, stepOp, r1_loss,
        r1BackwardOp, bumpGrads, Tensor.detach, h, ht, hpv, hg]
  · by_cases hγ : r1_gamma = 0 <;>
      refine ⟨?_, ?_⟩ <;>
        simp [update_Dv, bp_v, fillLabelOp, backwardOp, zeroGradOp, stepOp, r1_loss,
          r1BackwardOp, bumpGrads, Tensor.detach, h, ht, hpv, hg, hγ]

theorem update_Dv_sequence_witness :
    (update_Dv "hnn_phase_space" critC 1 disC gradC realBatchC fakeBatchC initState).2.2.trace
      = [.zeroGrad .Dv, .backward [.Dv] (9/10) true]
        ++ (if (1 : ℚ) ≠ 0 then [.gradCall true, .r1Backward [.Dv]] else [])
        ++ [.backward [.Dv] 0 false, .step .Dv] :=
  (update_Dv_sequence "hnn_phase_space" critC 1 disC gradC realBatchC fakeBatchC initState
    rfl rfl rfl (by decide)).1

/-- C1 counterexample: with `rnn_type = "gru"` and `r1_gamma = 1` the run of
`update_models` aborts inside the video-discriminator update: no update step
completes (no optimizer step at all) and no error/mean dictionaries are
returned, so the claimed ordering and key sets do not hold of this run. -/
theorem update_models_gru_r1_aborts :
    (update_models "gru" critC 2 4 (1/10) 1 disC disC gradC gradC realBatchC fakeBatchC
        initState).1
      = none
    ∧ stepEvents
        (update_models "gru" critC 2 4 (1/10) 1 disC disC gradC gradC realBatchC fakeBatchC
          initState).2.2.trace
      = 0 := by
  refine ⟨?_, ?_⟩ <;>
    simp [update_models, update_Dv, update_Di, update_G, bp_v, bp_i, fillLabelOp,
      backwardOp, zeroGradOp, stepOp, r1_loss, r1BackwardOp, latentBackwardOp, bumpGrads,
      Tensor.detach, stepEvents, initState, realBatchC, fakeBatchC]

/-- C1 (amended): for every run of `update_models` that does not abort (that
is, unless `rnn_type = "gru"` with a non-zero R1 weight, in which case the
video-discriminator update raises), the three update steps execute strictly
in the order video discriminator, image discriminator, generator — their
gradient clears and optimizer steps occur in exactly that order — and the
run returns an error dictionary with exactly the keys Dv_real, Dv_fake, Dv,
Di_real, Di_fake, Di, Gv, Gi (pairwise distinct, so the merge is a
key-disjoint union) and a mean dictionary with exactly the keys Dv_real,
Dv_fake, Di_real, Di_fake. -/
theorem update_models_order_and_keys
    (rnn_type : String) (criterion : List ℚ → ℚ → ℚ)
    (q_size batch_size : ℕ) (cyclic_coord_loss r1_gamma : ℚ)
    (dis_i dis_v : Tensor → List ℚ) (gv gi : List (List ℚ))
    (real_data fake_data : Batch) (s : State)
    (h : s.failed = none) (ht : s.trace = [])
    (hpv : real_data.videos.prov = []) (hpi : real_data.img.prov = [])
    (hok : rnn_type = "gru" → r1_gamma = 0) :
    ((update_models rnn_type criterion q_size batch_size cyclic_coord_loss r1_gamma
        dis_i dis_v gv gi real_data fake_data s).1.map fun r => r.1.map Prod.fst)
      = some ["Dv_real", "Dv_fake", "Dv", "Di_real", "Di_fake", "Di", "Gv", "Gi"]
    ∧ ((update_models rnn_type criterion q_size batch_size cyclic_coord_loss r1_gamma
        dis_i dis_v gv gi real_data fake_data s).1.map fun r => r.2.map Prod.fst)
      = some ["Dv_real", "Dv_fake", "Di_real", "Di_fake"]
    ∧ stepsOf (update_models rnn_type criterion q_size batch_size cyclic_coord_loss r1_gamma
        dis_i dis_v gv gi real_data fake_data s).2.2.trace
      = [.Dv, .Di, .Gi, .RNN]
    ∧ zerosOf (update_models rnn_type criterion q_size batch_size cyclic_coord_loss r1_gamma
        dis_i dis_v gv gi real_data fake_data s).2.2.trace
      = [.Dv, .Di, .Gi, .RNN] := by
  by_cases hg : rnn_type = "gru"
  · have hγ := hok hg
    subst hγ
    refine ⟨?_, ?_, ?_, ?_⟩ <;>
      simp [update_models, update_Dv, update_Di, update_G, bp_v, bp_i, fillLabelOp,
        backwardOp, zeroGradOp, stepOp, r1_loss, r1BackwardOp, latentBackwardOp, bumpGrads,
        Tensor.detach, stepsOf, zerosOf, h, ht, hpv, hpi, hg]
  · by_cases hγ : r1_gamma = 0 <;> by_cases hr : rnn_type = "hnn_phase_space" <;>
      refine ⟨?_, ?_, ?_, ?_⟩ <;>
        simp [update_models, update_Dv, update_Di, update_G, bp_v, bp_i, fillLabelOp,
          backwardOp, zeroGradOp, stepOp, r1_loss, r1BackwardOp, latentBackwardOp, bumpGrads,
          Tensor.detach, stepsOf, zerosOf, h, ht, hpv, hpi, hg, hγ, hr]

theorem update_models_order_and_keys_witness :
    ((update_models "gru" critC 2 4 (1/10) 0 disC disC gradC gradC realBatchC fakeBatchC
        initState).1.map fun r => r.1.map Prod.fst)
      = some ["Dv_real", "Dv_fake", "Dv", "Di_real", "Di_fake", "Di", "Gv", "Gi"]
    ∧ ((update_models "gru" critC 2 4 (1/10) 0 disC disC gradC gradC realBatchC fakeBatchC
        initState).1.map fun r => r.2.map Prod.fst)
      = some ["Dv_real", "Dv_fake", "Di_real", "Di_fake"]
    ∧ stepsOf (update_models "gru" critC 2 4 (1/10) 0 disC disC gradC gradC realBatchC
        fakeBatchC initState).2.2.trace
      = [.Dv, .Di, .Gi, .RNN]
    ∧ zerosOf (update_models "gru" critC 2 4 (1/10) 0 disC disC gradC gradC realBatchC
        fakeBatchC initState).2.2.trace
      = [.Dv, .Di, .Gi, .RNN] :=
  update_models_order_and_keys "gru" critC 2 4 (1/10) 0 disC disC gradC gradC
    realBatchC fakeBatchC initState rfl rfl rfl rfl (fun _ => rfl)

theorem sumAbs2_eq_zero (m : List (List ℚ)) (hm : ∀ r ∈ m, ∀ x ∈ r, x = 0) :
    sumAbs2 m = 0 := by
  unfold sumAbs2
  apply List.sum_eq_zero
  intro y hy
  obtain ⟨r, hr, rfl⟩ := List.mem_map.mp hy
  apply List.sum_eq_zero
  intro z hz
  obtain ⟨x, hx, rfl⟩ := List.mem_map.mp hz
  rw [hm r hr x hx]
  exact abs_zero

/-- C8: with the phase-space variant, `update_G` backpropagates a
physics-consistency penalty equal to the sum of absolute values of the
non-cyclic derivative channels (channels from `q_size` on) divided by
`batch_size` and weighted by `cyclic_coord_loss`; when the trajectory has
`batch_size` samples this is the batch mean of the per-sample sums times the
weight, and it is exactly 0 when all non-cyclic derivatives are 0; with any
other variant no latent penalty is computed or backpropagated. -/
theorem update_G_latent_penalty
    (criterion : List ℚ → ℚ → ℚ) (q_size batch_size : ℕ) (cyclic_coord_loss : ℚ)
    (dis_i dis_v : Tensor → List ℚ) (fake_data : Batch) (s : State)
    (h : s.failed = none) (ht : s.trace = []) :
    (update_G "hnn_phase_space" criterion q_size batch_size cyclic_coord_loss
        dis_i dis_v fake_data s).2.trace
      = [.zeroGrad .Gi, .zeroGrad .RNN,
         .backward (.Dv :: fake_data.videos.prov) (9/10) true,
         .backward (.Di :: fake_data.img.prov) (9/10) true,
         .latentBackward fake_data.dlatentProv
           (latentLoss q_size batch_size cyclic_coord_loss fake_data.dlatent),
         .step .Gi, .step .RNN]
    ∧ (∀ d : List (List (List ℚ)), d.length = batch_size →
        latentLoss q_size batch_size cyclic_coord_loss d
          = listMean (d.map fun sample => sumAbs2 (sample.map fun chs => chs.drop q_size))
              * cyclic_coord_loss)
    ∧ (∀ d : List (List (List ℚ)),
        (∀ sample ∈ d, ∀ t ∈ sample, ∀ x ∈ t.drop q_size, x = 0) →
        latentLoss q_size batch_size cyclic_coord_loss d = 0)
    ∧ (∀ rnn_type : String, rnn_type ≠ "hnn_phase_space" →
        latentEvents (update_G rnn_type criterion q_size batch_size cyclic_coord_loss
          dis_i dis_v fake_data s).2.trace = 0) := by
  refine ⟨?_, fun d hlen => ?_, fun d hz => ?_, fun rnn_type hrnn => ?_⟩
  · simp [update_G, bp_v, bp_i, fillLabelOp, backwardOp, zeroGradOp, stepOp,
      latentBackwardOp, h, ht]
  · simp only [latentLoss, listMean, List.map_map, List.length_map, hlen]
    rfl
  · simp only [latentLoss]
    have key : ((d.map fun sample => sample.map fun chs => chs.drop q_size).map sumAbs2).sum
        = 0 := by
      apply List.sum_eq_zero
      intro q hq
      obtain ⟨sample, hsample, rfl⟩ := List.mem_map.mp hq
      obtain ⟨t0, ht0, rfl⟩ := List.mem_map.mp hsample
      refine sumAbs2_eq_zero _ ?_
      intro r hr
      obtain ⟨t, ht', rfl⟩ := List.mem_map.mp hr
      intro x hx
      exact hz t0 ht0 t ht' x hx
    rw [key]
    simp
  · simp [update_G, bp_v, bp_i, fillLabelOp, backwardOp, zeroGradOp, stepOp,
      latentBackwardOp, latentEvents, h, ht, hrnn]

theorem update_G_latent_penalty_witness :
    latentLoss 2 2 (1/10) [[[1, 2, 0, 0]], [[3, 4, 0, 0]]] = 0
    ∧ latentEvents (update_G "gru" critC 2 2 (1/10) disC disC fakeBatchC initState).2.trace
      = 0 :=
  ⟨(update_G_latent_penalty critC 2 2 (1/10) disC disC fakeBatchC initState rfl rfl).2.2.1
      [[[1, 2, 0, 0]], [[3, 4, 0, 0]]] (by decide),
   (update_G_latent_penalty critC 2 2 (1/10) disC disC fakeBatchC initState rfl rfl).2.2.2
      "gru" (by decide)⟩

/-- C9: in every iteration of `update_models` (aborted ones included), each
trainable component satisfies the gradient discipline: it is stepped at most
once, and when it is stepped, exactly one clearing of its gradients occurs
before its step and that clearing precedes every backward pass accumulating
into it before the step; moreover an optimizer step applies only its own
component's accumulated gradients — it changes no other component's
parameters and no gradient accumulator. -/
theorem update_models_gradient_discipline
    (rnn_type : String) (criterion : List ℚ → ℚ → ℚ)
    (q_size batch_size : ℕ) (cyclic_coord_loss r1_gamma : ℚ)
    (dis_i dis_v : Tensor → List ℚ) (gv gi : List (List ℚ))
    (real_data fake_data : Batch) (s : State)
    (h : s.failed = none) (ht : s.trace = [])
    (hpv : real_data.videos.prov = []) (hpi : real_data.img.prov = [])
    (hfv : fake_data.videos.prov = [.Gi, .RNN]) (hfi : fake_data.img.prov = [.Gi, .RNN])
    (hdl : fake_data.dlatentProv = [.RNN]) :
    updateDiscipline (update_models rnn_type criterion q_size batch_size cyclic_coord_loss
        r1_gamma dis_i dis_v gv gi real_data fake_data s).2.2.trace
    ∧ ∀ (c c' : Comp) (s' : State), c ≠ c' →
        (stepOp c s').params.get c' = s'.params.get c' ∧ (stepOp c s').grads = s'.grads := by
  constructor
  · by_cases hg : rnn_type = "gru"
    · by_cases hγ : r1_gamma = 0 <;> intro c <;> cases c <;>
        simp [update_models, update_Dv, update_Di, update_G, bp_v, bp_i, fillLabelOp,
          backwardOp, zeroGradOp, stepOp, r1_loss, r1BackwardOp, latentBackwardOp,
          bumpGrads, Tensor.detach, updateDiscipline, compOK, isStepE, isZeroE, accumE,
          h, ht, hpv, hpi, hfv, hfi, hdl, hg, hγ]
    · by_cases hγ : r1_gamma = 0 <;> by_cases hr : rnn_type = "hnn_phase_space" <;>
        intro c <;> cases c <;>
          simp [update_models, update_Dv, update_Di, update_G, bp_v, bp_i, fillLabelOp,
            backwardOp, zeroGradOp, stepOp, r1_loss, r1BackwardOp, latentBackwardOp,
            bumpGrads, Tensor.detach, updateDiscipline, compOK, isStepE, isZeroE, accumE,
            h, ht, hpv, hpi, hfv, hfi, hdl, hg, hγ, hr]
  · intro c c' s' hcc
    have hcc' : c' ≠ c := Ne.symm hcc
    cases hf : s'.failed
    · constructor <;> simp [stepOp, hf, hcc']
    · constructor <;> simp [stepOp, hf]

theorem update_models_gradient_discipline_witness :
    updateDiscipline (update_models "gru" critC 2 4 (1/10) 0 disC disC gradC gradC
        realBatchC fakeBatchC initState).2.2.trace
    ∧ ∀ (c c' : Comp) (s' : State), c ≠ c' →
        (stepOp c s').params.get c' = s'.params.get c' ∧ (stepOp c s').grads = s'.grads :=
  update_models_gradient_discipline "gru" critC 2 4 (1/10) 0 disC disC gradC gradC
    realBatchC fakeBatchC initState rfl rfl rfl rfl rfl rfl rfl

end HGAN
